import Mathlib

/-!
Verification of the dlhub_sdk metadata-model and publication-client code.

The development shallowly embeds the Python sources:
* `dlhub_toolbox/models/pipeline.py` (`PipelineModel`),
* `dlhub_sdk/client.py` (`DLHubClient.publish_servable`, `DLHubClient._stage_data`),
together with the parts of `BaseMetadataModel` and of the Keras specialization
those files depend on; where the defining Python file is not part of the
sources at hand, the definition is modelled from the specification text and
the shapes exhibited by the unit tests, and is marked as such in its
doc comment.

Python dicts are embedded as insertion-ordered association lists inside a
JSON-like value type `JValue`; Python object state is passed explicitly, so a
"mutation" is a function from the old state to the new one, and an operation
that may raise returns `Except`.
-/

set_option autoImplicit false

namespace DlhubSdk

/-- JSON-like values: the canonical document produced by `to_dict` is a plain
nested mapping of strings, nulls, lists and nested mappings.  Objects keep
insertion order, matching Python dict semantics. -/
inductive JValue where
  | null
  | str (s : String)
  | arr (elems : List JValue)
  | obj (fields : List (String × JValue))

/-- First-match lookup in an association list (Python `d[k]` read). -/
def lookupAssoc {α : Type} (fs : List (String × α)) (k : String) : Option α :=
  match fs with
  | [] => none
  | (k', v) :: rest => if k' = k then some v else lookupAssoc rest k

/-- Python dict assignment `d[k] = v`: replace the value at an existing key in
place, otherwise append the new binding at the end (insertion order). -/
def setAssoc {α : Type} (fs : List (String × α)) (k : String) (v : α) :
    List (String × α) :=
  match fs with
  | [] => [(k, v)]
  | (k', v') :: rest =>
    if k' = k then (k', v) :: rest else (k', v') :: setAssoc rest k v

/-- Read key `k` of a JSON object (`none` on a non-object or a missing key). -/
def JValue.getKey (j : JValue) (k : String) : Option JValue :=
  match j with
  | .obj fs => lookupAssoc fs k
  | _ => none

/-- Python `d[k] = v` on a JSON object; identity on non-objects. -/
def JValue.setKey (j : JValue) (k : String) (v : JValue) : JValue :=
  match j with
  | .obj fs => .obj (setAssoc fs k v)
  | _ => j

/-- Read the nested key `d[k1][k2]`. -/
def JValue.getPath2 (j : JValue) (k1 k2 : String) : Option JValue :=
  (j.getKey k1).bind (fun inner => inner.getKey k2)

/-- Python `d[k1][k2] = v`.  The callers in the embedded code only apply this
when `k1` is a key the document is known to carry (Python would raise
`KeyError` otherwise), so the missing-key branch is the identity. -/
def JValue.setPath2 (j : JValue) (k1 k2 : String) (v : JValue) : JValue :=
  match j.getKey k1 with
  | some inner => j.setKey k1 (inner.setKey k2 v)
  | none => j

/-- `os.path.basename` for the slash-separated paths the SDK builds: the part
after the last `/`. -/
def basename (p : String) : String :=
  ((p.splitOn "/").getLast?).getD ""

/-- Embed an optional string the way Python serializes it into a step block:
`None` becomes JSON `null`. -/
def jsonOfOptStr : Option String → JValue
  | some s => .str s
  | none => .null

/-- State of a `BaseMetadataModel` (dlhub_toolbox/models `BaseMetadataModel`):
the identifier, the bibliographic fields and the file-reference table the
claims under verification depend on.  `files` maps a logical name to a local
filesystem path; `resourceType` is the datacite resource-type tag the
specialization fixed at construction. -/
structure BaseMetadataModel where
  dlhub_id : Option String
  title : Option String
  name : Option String
  visible_to : List String
  files : List (String × String)
  resourceType : JValue

/-- The identity-error condition of the spec's error taxonomy. -/
inductive IdentityError where
  | alreadyAssigned

/-- Modelled from the spec: `BaseMetadataModel.assign_uuid` is not among the
sources at hand (only its caller in `client.py` is).  Per §4.1 it generates a
new random UUID and sets it as identifier, and fails with an *AlreadyAssigned*
condition if an identifier is already present.  The freshly generated UUID is
passed in as `fresh`. -/
def BaseMetadataModel.assign_uuid (m : BaseMetadataModel) (fresh : String) :
    Except IdentityError BaseMetadataModel :=
  match m.dlhub_id with
  | some _ => .error .alreadyAssigned
  | none => .ok { m with dlhub_id := some fresh }

/-- Modelled from the spec: `BaseMetadataModel.to_dict` is not among the
sources at hand (only its callers and the document shape in
`test_keras.py` are).  Per §4.1 it produces the canonical document with a
`datacite` bibliographic section and a `dlhub` artifact section holding the
declared file references; when `simplify_paths` is true every file
reference's path is rewritten to its basename only, in the returned copy,
without mutating the live object's own file-reference table.  The returned
pair is (document, post-state of the object). -/
def BaseMetadataModel.to_dict (m : BaseMetadataModel) (simplify_paths : Bool) :
    JValue × BaseMetadataModel :=
  let outFiles := if simplify_paths
    then m.files.map (fun np => (np.1, basename np.2))
    else m.files
  let doc := JValue.obj [
    ("datacite", .obj [
      ("titles", .arr (match m.title with
        | some t => [.obj [("title", .str t)]]
        | none => [])),
      ("publisher", .str "DLHub"),
      ("resourceType", m.resourceType)]),
    ("dlhub", .obj [
      ("name", jsonOfOptStr m.name),
      ("type", .str "servable"),
      ("visible_to", .arr (m.visible_to.map JValue.str)),
      ("files", .obj (outFiles.map (fun np => (np.1, JValue.str np.2))))])]
  (doc, m)

/-- The argument of `PipelineModel.add_step`: either a DLHub identifier
string or a metadata-model instance (`isinstance(identifier,
BaseMetadataModel)` distinguishes the two in the Python source). -/
inductive StepIdentifier where
  | str (s : String)
  | model (m : BaseMetadataModel)

/-- State of a `PipelineModel` (dlhub_toolbox/models/pipeline.py): the
inherited base state plus the ordered list of step blocks, each stored as the
dict `add_step` composed. -/
structure PipelineModel where
  base : BaseMetadataModel
  steps : List JValue

/-- `PipelineModel.__init__`: empty step list over a base state. -/
def PipelineModel.mk0 (base : BaseMetadataModel) : PipelineModel :=
  { base := base, steps := [] }

/-- `PipelineModel.add_step` (pipeline.py lines 23-43): if the identifier is a
metadata model, read its `dlhub_id` now; compose the step block with
`dlhub_id` and `description`, add a `parameters` key only when parameters
were given, and append the block to `self.steps`. -/
def PipelineModel.add_step (p : PipelineModel) (identifier : StepIdentifier)
    (description : String) (parameters : Option JValue) : PipelineModel :=
  let ident : Option String :=
    match identifier with
    | .str s => some s
    | .model m => m.dlhub_id
  let step := JValue.obj
    ([("dlhub_id", jsonOfOptStr ident), ("description", .str description)] ++
      match parameters with
      | some ps => [("parameters", ps)]
      | none => [])
  { p with steps := p.steps ++ [step] }

/-- The resource-type block `PipelineModel.to_dict` writes. -/
def interactiveResource : JValue :=
  .obj [("resourceTypeGeneral", .str "InteractiveResource")]

/-- `PipelineModel.to_dict` (pipeline.py lines 45-53): serialize through the
base class, overwrite `output['datacite']['resourceType']` with the
InteractiveResource block, then add `output['pipeline'] = {'steps':
self.steps}`. -/
def PipelineModel.to_dict (p : PipelineModel) (simplify_paths : Bool) :
    JValue × PipelineModel :=
  let (output, base') := p.base.to_dict simplify_paths
  let output := output.setPath2 "datacite" "resourceType" interactiveResource
  let output := output.setKey "pipeline" (.obj [("steps", .arr p.steps)])
  (output, { p with base := base' })

/-- The errors `publish_servable` can propagate: an identity error out of
`assign_uuid`, or a schema violation out of
`validate_against_dlhub_schema`. -/
inductive PubError where
  | identity (e : IdentityError)
  | validation (e : String)

/-- The externally observable actions of one `publish_servable` call, in the
order they were performed. -/
inductive Event where
  | producedDict (doc : JValue)
  | validated (schema : String)
  | staged (path : Option String)
  | embeddedTransfer
  | submitted (doc : JValue)

/-- Outcome of a `publish_servable` call: the returned task id or the raised
error, the post-state of the model argument, the document submitted to the
service (if the call got that far), and the trace of actions. -/
structure PubOutcome where
  result : Except PubError String
  model : BaseMetadataModel
  submitted : Option JValue
  trace : List Event

/-- `DLHubClient._stage_data` (client.py lines 128-158).  The body of the
`try` block — zipping the servable and uploading it to S3 — is external
effectful code, represented by its outcome `uploadOutcome`; `dest_uuid` is
the random UUID generated for the destination.  On success the staged path
`os.path.join("s3://", "dlhub-anl", "servables/", dest_uuid)` is returned;
on any exception the handler prints the error and the function falls
through, returning Python `None`. -/
def DLHubClient.stage_data (uploadOutcome : Except String Unit)
    (dest_uuid : String) : Option String :=
  match uploadOutcome with
  | .ok _ => some ("s3://dlhub-anl/servables/" ++ dest_uuid)
  | .error _ => none

/-- `DLHubClient.publish_servable` (client.py lines 92-126).  External
collaborators are passed as oracles: `validate` is
`validate_against_dlhub_schema` (raising = `.error`), `uploadOutcome` and
`dest_uuid` feed `_stage_data`, `taskIdOf` is the service's response to the
final POST, and `fresh` is the UUID `assign_uuid` would draw.  The body
follows the source line by line: assign a UUID if the model has none, take
`to_dict(simplify_paths=True)`, validate against the `servable` schema,
stage the data, write `metadata['dlhub']['transfer_method'] = {'S3':
staged_path}`, and POST the document. -/
def DLHubClient.publish_servable (validate : JValue → String → Except String Unit)
    (uploadOutcome : Except String Unit) (dest_uuid : String)
    (taskIdOf : JValue → String) (fresh : String)
    (model : BaseMetadataModel) : PubOutcome :=
  match (if model.dlhub_id.isNone then model.assign_uuid fresh else .ok model) with
  | .error e =>
    { result := .error (.identity e), model := model,
      submitted := none, trace := [] }
  | .ok model1 =>
    let (metadata, model2) := model1.to_dict true
    match validate metadata "servable" with
    | .error v =>
      { result := .error (.validation v), model := model2,
        submitted := none, trace := [.producedDict metadata] }
    | .ok _ =>
      let staged_path := DLHubClient.stage_data uploadOutcome dest_uuid
      let metadata2 := metadata.setPath2 "dlhub" "transfer_method"
        (.obj [("S3", jsonOfOptStr staged_path)])
      let task_id := taskIdOf metadata2
      { result := .ok task_id, model := model2,
        submitted := some metadata2,
        trace := [.producedDict metadata, .validated "servable",
          .staged staged_path, .embeddedTransfer, .submitted metadata2] }

/-- The recursive type descriptor of the spec's data model: a tensor leaf
with a shape whose entries may be unconstrained (`none` = JSON `null`, the
batch dimension), or a composite tuple of element types. -/
inductive TypeDescriptor where
  | tensor (description : String) (shape : List (Option Nat))
  | tuple (description : String) (element_types : List TypeDescriptor)

/-- The arity-error condition of the spec's error taxonomy. -/
inductive ArityError where
  | labelCountMismatch

/-- The tensor descriptor the Keras introspection emits for one output
tensor, as exhibited by test_keras.py: type `ndarray`, description
`Tensor`, and the tensor's shape. -/
def tensorOf (shape : List (Option Nat)) : TypeDescriptor :=
  .tensor "Tensor" shape

/-- Modelled from the spec: the output-descriptor assembly of
`KerasModel.create_model` is not among the sources at hand (only its unit
tests in test_keras.py are).  Per §4.3 the caller supplies one output-label
group per output tensor and the counts must agree, failing with a
*LabelCountMismatch* condition otherwise; a single-output model gets that
output's tensor descriptor, and a multi-output model gets a composite
`tuple` descriptor whose `element_types` has one tensor descriptor per
output tensor, in order (test_keras.py shows description `Tuple of
tensors`).  `output_shapes` is the introspected list of output-tensor
shapes and `label_groups` the supplied output-label groups. -/
def KerasModel.run_output (output_shapes : List (List (Option Nat)))
    (label_groups : List (List String)) : Except ArityError TypeDescriptor :=
  if output_shapes.length = label_groups.length then
    match output_shapes with
    | [s] => .ok (tensorOf s)
    | ss => .ok (.tuple "Tuple of tensors" (ss.map tensorOf))
  else .error .labelCountMismatch

/-- The Python classes involved in the custom-object check: the Keras
`Layer` base capability, a conforming subclass, and the builtin `float`
the test passes as a bad custom object. -/
inductive PyClass where
  | kerasLayer
  | denseLayer
  | pyFloat

/-- The class's short name, as it would appear in an error message. -/
def PyClass.name : PyClass → String
  | .kerasLayer => "Layer"
  | .denseLayer => "Dense"
  | .pyFloat => "float"

/-- The class's fully qualified path, as test_keras.py shows it recorded in
the `custom_objects` table (`keras.layers.core.Dense`). -/
def PyClass.modulePath : PyClass → String
  | .kerasLayer => "keras.engine.topology.Layer"
  | .denseLayer => "keras.layers.core.Dense"
  | .pyFloat => "builtins.float"

/-- Python `issubclass(cls, Layer)` on the modelled class universe. -/
def PyClass.isLayerSubclass : PyClass → Bool
  | .kerasLayer => true
  | .denseLayer => true
  | .pyFloat => false

/-- `true` when the first character list begins with the second one. -/
def isPrefixChars : List Char → List Char → Bool
  | [], _ => true
  | _ :: _, [] => false
  | a :: as, b :: bs => a = b && isPrefixChars as bs

/-- `true` when `pat` occurs as a contiguous run inside `s`. -/
def containsSub : List Char → List Char → Bool
  | [], pat => pat.isEmpty
  | c :: rest, pat => isPrefixChars pat (c :: rest) || containsSub rest pat

/-- `true` when `pat` occurs as a contiguous substring of `s`. -/
def strContains (s pat : String) : Bool :=
  containsSub s.data pat.data

/-- Modelled from the spec: `KerasModel.add_custom_object` is not among the
sources at hand (only its unit test in test_keras.py is).  Per §4.3 step 5
it records the custom type under its registered name and fails with a
*NotASubclass* condition if the supplied type does not conform to the
expected base capability; the test shows the failure is a `ValueError`
whose message contains `subclass` and that a recorded entry maps the name
to the class's fully qualified path. -/
def KerasModel.add_custom_object (custom_objects : List (String × String))
    (name : String) (cls : PyClass) :
    Except String (List (String × String)) :=
  if cls.isLayerSubclass then .ok (setAssoc custom_objects name cls.modulePath)
  else .error ("Custom object of class " ++ cls.name ++
    " is not a subclass of the Keras Layer class")

/-! ### Concrete fixtures used to instantiate the theorems -/

/-- A published artifact: identifier already assigned. -/
def sampleA : BaseMetadataModel :=
  { dlhub_id := some "uuid-a", title := some "Image resizer",
    name := some "resize", visible_to := ["public"],
    files := [("model", "/home/user/models/net.hd5")],
    resourceType := .obj [("resourceTypeGeneral", .str "InteractiveResource")] }

/-- The same artifact before its first publication: no identifier yet. -/
def sampleUnassigned : BaseMetadataModel :=
  { sampleA with dlhub_id := none }

/-- A freshly constructed pipeline. -/
def samplePipe0 : PipelineModel :=
  PipelineModel.mk0 sampleUnassigned

/-! ### Association-list lemmas -/

theorem lookupAssoc_setAssoc_self {α : Type} (fs : List (String × α))
    (k : String) (v : α) : lookupAssoc (setAssoc fs k v) k = some v := by
  induction fs with
  | nil => simp [setAssoc, lookupAssoc]
  | cons hd tl ih =>
    obtain ⟨k', v'⟩ := hd
    by_cases h : k' = k
    · simp [setAssoc, lookupAssoc, h]
    · simp [setAssoc, lookupAssoc, h, ih]

theorem lookupAssoc_setAssoc_ne {α : Type} (fs : List (String × α))
    (k k' : String) (v : α) (h : k ≠ k') :
    lookupAssoc (setAssoc fs k v) k' = lookupAssoc fs k' := by
  induction fs with
  | nil => simp [setAssoc, lookupAssoc, h]
  | cons hd tl ih =>
    obtain ⟨k'', v''⟩ := hd
    by_cases h2 : k'' = k
    · subst h2; simp [setAssoc, lookupAssoc, h, ih]
    · simp [setAssoc, lookupAssoc, h2, ih]

/-! ### Claim theorems -/

/-- C1: `add_step` reads the referenced model's identifier at the moment of
the call and stores the resolved string in the appended step block; `to_dict`
serializes the stored step blocks verbatim, so the document's
`pipeline.steps` entry for the new step carries the identifier the model had
when the step was added — the stored `dlhub_id` is never re-derived from the
model, so no later change to the model can affect it. -/
theorem add_step_resolves_identity_at_call_time (p : PipelineModel)
    (A : BaseMetadataModel) (desc : String) (params : Option JValue)
    (s : Bool) (u : String) (h : A.dlhub_id = some u) :
    ((p.add_step (.model A) desc params).to_dict s).1.getPath2 "pipeline" "steps"
        = some (.arr ((p.add_step (.model A) desc params).steps)) ∧
    ((p.add_step (.model A) desc params).steps.getLast?).bind
        (fun st => st.getKey "dlhub_id") = some (.str u) := by
  constructor
  · simp [PipelineModel.to_dict, BaseMetadataModel.to_dict, JValue.setPath2,
      JValue.setKey, JValue.getPath2, JValue.getKey, setAssoc, lookupAssoc]
  · simp [PipelineModel.add_step, JValue.getKey, lookupAssoc, h]
    cases params <;> simp [lookupAssoc, jsonOfOptStr]

/-- C10: `add_step` is total: for every accepted argument the step block is
appended (the step list grows by one); when the referenced model's
identifier is still `None` the stored `dlhub_id` is `None` (serialized as
JSON null) with no further check; and the `parameters` key is present in
the step exactly when a non-`None` parameters argument was given. -/
theorem add_step_never_raises (p : PipelineModel) (identifier : StepIdentifier)
    (desc : String) (params : Option JValue) :
    ((p.add_step identifier desc params).steps.length = p.steps.length + 1) ∧
    (∀ A, identifier = .model A → A.dlhub_id = none →
      ((p.add_step identifier desc params).steps.getLast?).bind
        (fun st => st.getKey "dlhub_id") = some .null) ∧
    ((((p.add_step identifier desc params).steps.getLast?).bind
        (fun st => st.getKey "parameters")).isSome = params.isSome) := by
  refine ⟨by simp [PipelineModel.add_step], ?_, ?_⟩
  · intro A hA hid
    subst hA
    simp [PipelineModel.add_step, JValue.getKey, lookupAssoc, hid]
    cases params <;> simp [lookupAssoc, jsonOfOptStr]
  · cases params <;>
      simp [PipelineModel.add_step, JValue.getKey, lookupAssoc]

/-- Witness for C10 at a concrete unassigned model. -/
theorem add_step_never_raises_witness :
    sampleUnassigned.dlhub_id = none ∧
    ((samplePipe0.add_step (.model sampleUnassigned) "resize" none).steps.getLast?).bind
      (fun st => st.getKey "dlhub_id") = some .null :=
  ⟨rfl, (add_step_never_raises samplePipe0 (.model sampleUnassigned) "resize" none).2.1
    sampleUnassigned rfl rfl⟩

/-- Witness for C1 at a concrete model whose identifier is `uuid-a`. -/
theorem add_step_resolves_identity_witness :
    sampleA.dlhub_id = some "uuid-a" ∧
    ((samplePipe0.add_step (.model sampleA) "resize" none).steps.getLast?).bind
      (fun st => st.getKey "dlhub_id") = some (.str "uuid-a") :=
  ⟨rfl, (add_step_resolves_identity_at_call_time samplePipe0 sampleA "resize" none
    false "uuid-a" rfl).2⟩

/-- The model state after the identifier-assignment step of
`publish_servable`. -/
def pubModel1 (fresh : String) (model : BaseMetadataModel) : BaseMetadataModel :=
  if model.dlhub_id.isNone then { model with dlhub_id := some fresh } else model

/-- The document `publish_servable` submits: the canonical dict with the
staged location written under `dlhub.transfer_method`. -/
def pubDoc2 (uploadOutcome : Except String Unit) (dest_uuid : String)
    (fresh : String) (model : BaseMetadataModel) : JValue :=
  (((pubModel1 fresh model).to_dict true).1).setPath2 "dlhub" "transfer_method"
    (.obj [("S3", jsonOfOptStr (DLHubClient.stage_data uploadOutcome dest_uuid))])

/-- Characterization of `publish_servable` by the outcome of the schema
validation: the identifier-assignment branch never errors (it only calls
`assign_uuid` on a model without an identifier), so the call fails exactly
when validation fails. -/
theorem publish_servable_eq (validate : JValue → String → Except String Unit)
    (uploadOutcome : Except String Unit) (dest_uuid : String)
    (taskIdOf : JValue → String) (fresh : String) (model : BaseMetadataModel) :
    DLHubClient.publish_servable validate uploadOutcome dest_uuid taskIdOf
        fresh model =
      match validate (((pubModel1 fresh model).to_dict true).1) "servable" with
      | .error v =>
        { result := .error (.validation v), model := pubModel1 fresh model,
          submitted := none,
          trace := [.producedDict (((pubModel1 fresh model).to_dict true).1)] }
      | .ok _ =>
        { result := .ok (taskIdOf (pubDoc2 uploadOutcome dest_uuid fresh model)),
          model := pubModel1 fresh model,
          submitted := some (pubDoc2 uploadOutcome dest_uuid fresh model),
          trace := [.producedDict (((pubModel1 fresh model).to_dict true).1),
            .validated "servable",
            .staged (DLHubClient.stage_data uploadOutcome dest_uuid),
            .embeddedTransfer,
            .submitted (pubDoc2 uploadOutcome dest_uuid fresh model)] } := by
  cases hid : model.dlhub_id with
  | none =>
    simp only [DLHubClient.publish_servable, BaseMetadataModel.assign_uuid,
      pubModel1, pubDoc2, hid, Option.isNone_none, if_true, ite_true]
    rfl
  | some u =>
    simp only [DLHubClient.publish_servable, BaseMetadataModel.assign_uuid,
      pubModel1, pubDoc2, hid, Option.isNone_some, if_false, ite_false]
    rfl

/-- C2: `publish_servable` assigns a fresh UUID (via `assign_uuid`) if and
only if the model's identifier is `None` at call time; a model that already
has an identifier is returned completely unchanged. -/
theorem publish_servable_uuid_assignment
    (validate : JValue → String → Except String Unit)
    (uploadOutcome : Except String Unit) (dest_uuid : String)
    (taskIdOf : JValue → String) (fresh : String) (model : BaseMetadataModel) :
    (DLHubClient.publish_servable validate uploadOutcome dest_uuid taskIdOf
        fresh model).model =
      (if model.dlhub_id.isNone
        then { model with dlhub_id := some fresh } else model) := by
  rw [publish_servable_eq]
  cases validate (((pubModel1 fresh model).to_dict true).1) "servable" <;>
    simp [pubModel1]

/-- C3: the steps of `publish_servable` happen in order — the canonical dict
is produced, validated against the `servable` schema, the files are staged,
the staged location is embedded under `dlhub.transfer_method`, and only then
is the document submitted; when validation fails the call errors and neither
a staging nor a submission action occurs. -/
theorem publish_servable_ordering
    (validate : JValue → String → Except String Unit)
    (uploadOutcome : Except String Unit) (dest_uuid : String)
    (taskIdOf : JValue → String) (fresh : String) (model : BaseMetadataModel) :
    (∀ e, (DLHubClient.publish_servable validate uploadOutcome dest_uuid
        taskIdOf fresh model).result = .error e →
      (DLHubClient.publish_servable validate uploadOutcome dest_uuid taskIdOf
        fresh model).submitted = none ∧
      (∀ sp, Event.staged sp ∉ (DLHubClient.publish_servable validate
        uploadOutcome dest_uuid taskIdOf fresh model).trace) ∧
      (∀ d, Event.submitted d ∉ (DLHubClient.publish_servable validate
        uploadOutcome dest_uuid taskIdOf fresh model).trace)) ∧
    (∀ tk, (DLHubClient.publish_servable validate uploadOutcome dest_uuid
        taskIdOf fresh model).result = .ok tk →
      ∃ md sp,
        md = (((pubModel1 fresh model).to_dict true).1) ∧
        (DLHubClient.publish_servable validate uploadOutcome dest_uuid taskIdOf
          fresh model).trace =
          [.producedDict md, .validated "servable", .staged sp,
            .embeddedTransfer,
            .submitted (md.setPath2 "dlhub" "transfer_method"
              (.obj [("S3", jsonOfOptStr sp)]))] ∧
        (DLHubClient.publish_servable validate uploadOutcome dest_uuid taskIdOf
          fresh model).submitted =
          some (md.setPath2 "dlhub" "transfer_method"
            (.obj [("S3", jsonOfOptStr sp)]))) := by
  rw [publish_servable_eq]
  cases validate (((pubModel1 fresh model).to_dict true).1) "servable" with
  | error v =>
    refine ⟨fun e he => ⟨rfl, fun sp => ?_, fun d => ?_⟩, fun tk htk => by simp at htk⟩
    · simp
    · simp
  | ok _ =>
    refine ⟨fun e he => by simp at he, fun tk htk => ?_⟩
    exact ⟨_, DLHubClient.stage_data uploadOutcome dest_uuid, rfl, rfl, rfl⟩

/-- Witness for C3: with a failing validator, the call errors and the trace
contains no staging action. -/
theorem publish_servable_ordering_witness :
    (DLHubClient.publish_servable (fun _ _ => .error "missing required key")
      (.ok ()) "dest-1" (fun _ => "task-42") "fresh-1" sampleA).result =
      .error (.validation "missing required key") ∧
    (∀ sp, Event.staged sp ∉ (DLHubClient.publish_servable
      (fun _ _ => .error "missing required key") (.ok ()) "dest-1"
      (fun _ => "task-42") "fresh-1" sampleA).trace) :=
  ⟨rfl, ((publish_servable_ordering (fun _ _ => .error "missing required key")
    (.ok ()) "dest-1" (fun _ => "task-42") "fresh-1" sampleA).1
    (.validation "missing required key") rfl).2.1⟩

/-- C4 (code bug): when staging fails, `_stage_data` catches the exception,
prints it and falls through returning `None`; `publish_servable` then still
submits the document with `dlhub.transfer_method = {'S3': None}` and returns
a task id — the staging failure is silently swallowed.  Evaluated here at a
concrete failing upload. -/
theorem publish_servable_swallows_staging_failure :
    (DLHubClient.publish_servable (fun _ _ => .ok ()) (.error "connection reset")
      "dest-1" (fun _ => "task-42") "fresh-1" sampleA).result = .ok "task-42" ∧
    ((DLHubClient.publish_servable (fun _ _ => .ok ()) (.error "connection reset")
      "dest-1" (fun _ => "task-42") "fresh-1" sampleA).submitted.bind
        (fun d => d.getPath2 "dlhub" "transfer_method")) =
      some (.obj [("S3", .null)]) := by
  exact ⟨rfl, rfl⟩

/-- C5: `PipelineModel.to_dict` reuses the base-class serialization, except
that `datacite.resourceType` is overridden to the InteractiveResource block
and a `pipeline` section is added whose `steps` entry holds the stored steps
in the order they were added: every top-level key other than `pipeline` and
`datacite` agrees with the base document, and every `datacite` key other
than `resourceType` agrees with the base document. -/
theorem pipeline_to_dict_reuses_base (p : PipelineModel) (s : Bool) :
    ((p.to_dict s).1.getPath2 "datacite" "resourceType" =
      some (.obj [("resourceTypeGeneral", .str "InteractiveResource")])) ∧
    ((p.to_dict s).1.getKey "pipeline" =
      some (.obj [("steps", .arr p.steps)])) ∧
    (∀ k, k ≠ "pipeline" → k ≠ "datacite" →
      (p.to_dict s).1.getKey k = ((p.base.to_dict s).1).getKey k) ∧
    (∀ k2, k2 ≠ "resourceType" →
      (p.to_dict s).1.getPath2 "datacite" k2 =
        ((p.base.to_dict s).1).getPath2 "datacite" k2) := by
  refine ⟨?_, ?_, ?_, ?_⟩
  · simp [PipelineModel.to_dict, BaseMetadataModel.to_dict, JValue.setPath2,
      JValue.setKey, JValue.getPath2, JValue.getKey, setAssoc, lookupAssoc,
      interactiveResource]
  · simp [PipelineModel.to_dict, BaseMetadataModel.to_dict, JValue.setPath2,
      JValue.setKey, JValue.getPath2, JValue.getKey, setAssoc, lookupAssoc]
  · intro k h1 h2
    simp [PipelineModel.to_dict, BaseMetadataModel.to_dict, JValue.setPath2,
      JValue.setKey, JValue.getPath2, JValue.getKey, setAssoc, lookupAssoc,
      Ne.symm h1, Ne.symm h2]
  · intro k2 h
    simp [PipelineModel.to_dict, BaseMetadataModel.to_dict, JValue.setPath2,
      JValue.setKey, JValue.getPath2, JValue.getKey, setAssoc, lookupAssoc,
      Ne.symm h]

/-- Witness for C5: the `dlhub` section of a concrete pipeline document
agrees with the base-class document. -/
theorem pipeline_to_dict_reuses_base_witness :
    (("dlhub" : String) ≠ "pipeline") ∧ (("dlhub" : String) ≠ "datacite") ∧
    (samplePipe0.to_dict false).1.getKey "dlhub" =
      ((samplePipe0.base.to_dict false).1).getKey "dlhub" :=
  ⟨by decide, by decide,
    (pipeline_to_dict_reuses_base samplePipe0 false).2.2.1 "dlhub"
      (by decide) (by decide)⟩

/-- C6: in the document produced by `to_dict(simplify_paths=True)` every
file-reference path equals the basename of the corresponding path stored in
the model (same logical names, same order), and the model's own
file-reference table — indeed its whole state — is unchanged by the call. -/
theorem to_dict_simplify_paths_basenames (m : BaseMetadataModel) :
    ((m.to_dict true).1.getPath2 "dlhub" "files" =
      some (.obj (m.files.map (fun np => (np.1, .str (basename np.2)))))) ∧
    ((m.to_dict true).2.files = m.files) ∧
    ((m.to_dict true).2 = m) := by
  refine ⟨?_, rfl, rfl⟩
  simp [BaseMetadataModel.to_dict, JValue.getPath2, JValue.getKey,
    lookupAssoc, List.map_map, Function.comp]

/-- C7: a second `assign_uuid` on a model whose identifier was set by a
first successful `assign_uuid` fails with the *AlreadyAssigned* identity
error, and the identifier set by the first call is still in place after the
failed second call. -/
theorem assign_uuid_twice_fails (m m1 : BaseMetadataModel) (f1 f2 : String)
    (h : m.assign_uuid f1 = .ok m1) :
    m1.assign_uuid f2 = .error IdentityError.alreadyAssigned ∧
    m1.dlhub_id = some f1 := by
  cases hm : m.dlhub_id with
  | some u => simp [BaseMetadataModel.assign_uuid, hm] at h
  | none =>
    simp [BaseMetadataModel.assign_uuid, hm] at h
    constructor <;> simp [BaseMetadataModel.assign_uuid, ← h]

/-- Witness for C7 at a concrete unassigned model. -/
theorem assign_uuid_twice_fails_witness :
    sampleUnassigned.assign_uuid "uuid-1" =
      .ok { sampleUnassigned with dlhub_id := some "uuid-1" } ∧
    ({ sampleUnassigned with dlhub_id := some "uuid-1" }.assign_uuid "uuid-2" =
      .error IdentityError.alreadyAssigned ∧
     ({ sampleUnassigned with dlhub_id := some "uuid-1" } :
        BaseMetadataModel).dlhub_id = some "uuid-1") :=
  ⟨rfl, assign_uuid_twice_fails sampleUnassigned _ "uuid-1" "uuid-2" rfl⟩

/-- C8: with multiple output tensors and one label group per output tensor,
the emitted `run` output descriptor is a composite `tuple` whose
`element_types` has exactly one tensor descriptor per output tensor, in
order; when the number of label groups disagrees with the output-tensor
count the construction fails with the *LabelCountMismatch* arity error. -/
theorem run_output_arity (output_shapes : List (List (Option Nat)))
    (label_groups : List (List String)) :
    (2 ≤ output_shapes.length → label_groups.length = output_shapes.length →
      KerasModel.run_output output_shapes label_groups =
        .ok (.tuple "Tuple of tensors" (output_shapes.map tensorOf)) ∧
      (output_shapes.map tensorOf).length = output_shapes.length) ∧
    (label_groups.length ≠ output_shapes.length →
      KerasModel.run_output output_shapes label_groups =
        .error ArityError.labelCountMismatch) := by
  constructor
  · intro h2 hlen
    refine ⟨?_, by simp⟩
    cases output_shapes with
    | nil => simp at h2
    | cons a t =>
      cases t with
      | nil => simp at h2
      | cons b t2 => simp [KerasModel.run_output, hlen]
  · intro hne
    simp [KerasModel.run_output, Ne.symm hne]

/-- Witness for C8: a two-output model with two label groups gets a tuple
descriptor with two element types. -/
theorem run_output_arity_witness :
    (2 ≤ ([[none, some 1], [none, some 2]] : List (List (Option Nat))).length) ∧
    ((([["y"], ["yes", "no"]] : List (List String))).length =
      ([[none, some 1], [none, some 2]] : List (List (Option Nat))).length) ∧
    KerasModel.run_output [[none, some 1], [none, some 2]] [["y"], ["yes", "no"]] =
      .ok (.tuple "Tuple of tensors"
        (([[none, some 1], [none, some 2]] : List (List (Option Nat))).map tensorOf)) :=
  ⟨by decide, by decide,
    ((run_output_arity [[none, some 1], [none, some 2]] [["y"], ["yes", "no"]]).1
      (by decide) (by decide)).1⟩

/-- C9: `add_custom_object` with a class that is not a subclass of the
expected Keras `Layer` base capability fails with an error whose message
indicates the supplied type is not a valid subclass. -/
theorem add_custom_object_not_subclass (objs : List (String × String))
    (name : String) (cls : PyClass) (h : cls.isLayerSubclass = false) :
    ∃ msg, KerasModel.add_custom_object objs name cls = .error msg ∧
      strContains msg "subclass" = true := by
  cases cls with
  | kerasLayer => simp [PyClass.isLayerSubclass] at h
  | denseLayer => simp [PyClass.isLayerSubclass] at h
  | pyFloat => exact ⟨_, rfl, by decide⟩

/-- Witness for C9: `add_custom_object("BadLayer", float)` fails with a
message containing `subclass`. -/
theorem add_custom_object_not_subclass_witness :
    PyClass.pyFloat.isLayerSubclass = false ∧
    ∃ msg, KerasModel.add_custom_object [] "BadLayer" .pyFloat = .error msg ∧
      strContains msg "subclass" = true :=
  ⟨rfl, add_custom_object_not_subclass [] "BadLayer" .pyFloat rfl⟩

end DlhubSdk
